import Mathlib

/-!
Shallow embedding of `bin/websocket_app/main.cpp` from qnx-ports/aws-crt-cpp.

The program is a demonstration CLI that parses options, parses an endpoint
URI, initializes logging, builds an MQTT-over-WebSocket client configuration
and performs a connect.  We embed the option-parsing loop `s_parse_options`,
the port/logging/config logic of `main`, and the script of MQTT operations
that `main` issues.  External SDK pieces that this repository pulls in but
whose sources are not under `src/` (the `Io::Uri` parser, `aws_cli_getopt_long`
and `aws_string_to_log_level`) are modelled from the spec, each marked as such
in its doc comment.
-/

namespace WebsocketApp

/-- Log levels, numbered as in the `aws_log_level` / `Aws::Crt::LogLevel`
enumerations the program compares against (`NONE = 0`, `ERROR = 2`,
`INFO = 4`, `DEBUG = 5`, `TRACE = 6`); only the levels the spec's CLI
surface mentions (plus the `none` default) are needed by the program's
branches. -/
inductive CrtLogLevel where
  | noneLevel
  | errorLevel
  | infoLevel
  | debugLevel
  | traceLevel

/-- Numeric value of a log level, used by the `ctx.LogLevel < Error`
comparison at main.cpp line 130. -/
def logLevelNat : CrtLogLevel → Nat
  | .noneLevel => 0
  | .errorLevel => 2
  | .infoLevel => 4
  | .debugLevel => 5
  | .traceLevel => 6

/-- Modelled from the spec: `aws_string_to_log_level` (aws-c-common, not under
`src/`) converts the verbose LEVEL strings the CLI documents —
"ERROR|INFO|DEBUG|TRACE" — to log levels; any other string fails to convert,
in which case main.cpp's caller keeps its preset `AWS_LL_NONE`. -/
def aws_string_to_log_level (s : String) : Option CrtLogLevel :=
  if s = "ERROR" then some .errorLevel
  else if s = "INFO" then some .infoLevel
  else if s = "DEBUG" then some .debugLevel
  else if s = "TRACE" then some .traceLevel
  else none

/-- The syntactic pieces of a URI argument before resolution: a scheme,
an optional host and a port (0 when the URI has no explicit port, matching
`GetPort()` being falsy at main.cpp line 187). -/
structure UriInput where
  scheme : String
  host : Option String
  port : Nat

/-- A successfully resolved endpoint URI: host present, scheme supported. -/
structure ParsedUri where
  scheme : String
  host : String
  port : Nat

/-- Modelled from the spec: the `Io::Uri` constructor / Endpoint Resolver
(`resolve(uriString) -> Endpoint | ParseError`, aws-crt-cpp code not under
`src/`): it "fails with ParseError when the URI lacks a host or uses an
unsupported scheme" (supported schemes: mqtt, mqtts, wss). -/
def resolveUri (u : UriInput) : Option ParsedUri :=
  match u.host with
  | none => none
  | some h =>
      if u.scheme = "mqtt" ∨ u.scheme = "mqtts" ∨ u.scheme = "wss" then
        some ⟨u.scheme, h, u.port⟩
      else
        none

/-- Modelled from the spec: "the URI scheme's default port" for the three
supported schemes, with their standard values (mqtt 1883, mqtts 8883,
wss 443).  This definition follows the spec's words, for comparison with
the port logic embedded from the source; it is not part of the program. -/
def specSchemeDefaultPort (scheme : String) : Nat :=
  if scheme = "mqtt" then 1883
  else if scheme = "mqtts" then 8883
  else if scheme = "wss" then 443
  else 0

/-- The mutable CLI context `struct app_ctx` (main.cpp lines 33-47), with the
fields the program reads or writes.  `uri = none` models a default-constructed
(invalid) `Io::Uri`, which is what `if (!ctx.uri)` tests. -/
structure AppCtx where
  uri : Option ParsedUri
  port : Nat
  cacert : Option String
  cert : Option String
  key : Option String
  connect_timeout : Int
  traceFile : Option String
  logLevel : CrtLogLevel

/-- The context as `main` prepares it before `s_parse_options` (main.cpp
lines 181-184): zero-initialized, then `connect_timeout = 3000` and
`port = 443`. -/
def initCtx : AppCtx :=
  { uri := none, port := 443, cacert := none, cert := none, key := none,
    connect_timeout := 3000, traceFile := none, logLevel := .noneLevel }

/-- One command-line token as the parse loop consumes it: a long option with
its argument, a short option with its argument, or a positional argument
(the endpoint URI, carried as its syntactic pieces). -/
inductive CliToken where
  | longOpt (name : String) (arg : Option String)
  | shortOpt (c : Char) (arg : Option String)
  | positional (u : UriInput)

/-- The `val` character registered for each long option in `s_long_options`
(main.cpp lines 66-76). -/
def longOptionVal (name : String) : Option Char :=
  if name = "cacert" then some 'a'
  else if name = "cert" then some 'c'
  else if name = "key" then some 'e'
  else if name = "connect-timeout" then some 'f'
  else if name = "log" then some 'l'
  else if name = "verbose" then some 'v'
  else if name = "help" then some 'h'
  else none

/-- The option characters of the optstring
`"a:b:c:e:f:H:d:g:M:GPHiko:t:l:v:VwWh"` passed to the getopt call
(main.cpp line 83). -/
def optstringChars : List Char :=
  ['a', 'b', 'c', 'e', 'f', 'H', 'd', 'g', 'M', 'G', 'P', 'H', 'i', 'k',
   'o', 't', 'l', 'v', 'V', 'w', 'W', 'h']

/-- What one getopt call reports to the parse loop's switch: an option
character with its argument, or a positional argument. -/
inductive GetoptEv where
  | opt (c : Char) (arg : Option String)
  | positional (u : UriInput)

/-- Modelled from the spec: `aws_cli_getopt_long` (aws-c-common, not under
`src/`), with standard getopt_long semantics over the tables embedded above:
a recognized long option yields its registered `val` character, a recognized
short option yields itself, an unrecognized option yields the failure
character (here written as the question mark, which reaches the switch's
default branch), and a positional argument is reported as such. -/
def aws_cli_getopt_long_ev (t : CliToken) : GetoptEv :=
  match t with
  | .longOpt name arg =>
      match longOptionVal name with
      | some c => .opt c arg
      | none => .opt '?' arg
  | .shortOpt c arg =>
      if c ∈ optstringChars then .opt c arg else .opt '?' arg
  | .positional u => .positional u

/-- The lines `s_usage` writes to stderr (main.cpp lines 49-63) before
calling `exit`. -/
def usageLines : List String :=
  ["usage: websocket_app [options] endpoint",
   " endpoint: url to connect to",
   " Options:",
   "      --cacert FILE: path to a CA certficate file.",
   "      --cert FILE: path to a PEM encoded certificate to use with mTLS",
   "      --key FILE: Path to a PEM encoded private key that matches cert.",
   "  -l, --log FILE: dumps logs to FILE instead of stderr.",
   "  -v, --verbose: ERROR|INFO|DEBUG|TRACE: log level to configure. Default is none.",
   "  -h, --help",
   "            Display this message and quit."]

/-- State threaded through the parse loop: the context being filled in and
the messages written to stderr so far. -/
structure ParseSt where
  ctx : AppCtx
  errLog : List String

/-- The parse state on entry to `s_parse_options`. -/
def initSt : ParseSt := { ctx := initCtx, errLog := [] }

/-- Result of the parse phase: either the process exits (`exit` with a code,
having written the listed messages to stderr), or parsing goes on / succeeds
with a value. -/
inductive PRes (α : Type) where
  | exitWith (code : Int) (stderrOut : List String)
  | ok (a : α)

/-- The switch cases of `s_parse_options` for an option character (main.cpp
lines 90-140).  The cases `'a'`, `'c'`, `'e'`, `'l'` store their argument;
`'h'` prints usage and exits 0; `'v'` converts the level string (keeping the
preset `AWS_LL_NONE` when conversion fails) into `ctx.LogLevel` and exits 1
when the resulting level is below `Error`; every other option character
reaches the default branch, prints "Unknown option" and exits 1.  There is
no case for `'f'` (`--connect-timeout`). -/
def parseOptChar (st : ParseSt) (c : Char) (arg : Option String) : PRes ParseSt :=
  if c = 'a' then .ok { st with ctx := { st.ctx with cacert := arg } }
  else if c = 'c' then .ok { st with ctx := { st.ctx with cert := arg } }
  else if c = 'e' then .ok { st with ctx := { st.ctx with key := arg } }
  else if c = 'l' then .ok { st with ctx := { st.ctx with traceFile := arg } }
  else if c = 'h' then .exitWith 0 (st.errLog ++ usageLines)
  else if c = 'v' then
    if logLevelNat ((arg.bind aws_string_to_log_level).getD CrtLogLevel.noneLevel) <
        logLevelNat CrtLogLevel.errorLevel then
      .exitWith 1 (st.errLog ++ ["unsupported log level"] ++ usageLines)
    else
      .ok { st with ctx := { st.ctx with
              logLevel := (arg.bind aws_string_to_log_level).getD CrtLogLevel.noneLevel } }
  else .exitWith 1 (st.errLog ++ ["Unknown option"] ++ usageLines)

/-- The switch case of `s_parse_options` for a positional argument (main.cpp
lines 95-109): parse the URI, report failure to stderr and exit 1, or store
it (the success path also writes a message to stderr, line 106). -/
def parsePositional (st : ParseSt) (u : UriInput) : PRes ParseSt :=
  match resolveUri u with
  | none =>
      .exitWith 1 (st.errLog ++ ["Failed to parse uri"] ++ usageLines)
  | some pu =>
      .ok { ctx := { st.ctx with uri := some pu },
            errLog := st.errLog ++ ["Success to parse uri"] }

/-- One iteration of the `while` loop of `s_parse_options` (main.cpp lines
80-141): dispatch on what getopt reported, mirroring the switch. -/
def parseStep (st : ParseSt) (t : CliToken) : PRes ParseSt :=
  match aws_cli_getopt_long_ev t with
  | .positional u => parsePositional st u
  | .opt c arg => parseOptChar st c arg

/-- The parse loop: consume tokens until one of them exits the process or
the tokens run out. -/
def parseFold (st : ParseSt) : List CliToken → PRes ParseSt
  | [] => .ok st
  | t :: ts =>
      match parseStep st t with
      | .exitWith code out => .exitWith code out
      | .ok st' => parseFold st' ts

/-- `s_parse_options` (main.cpp lines 78-148): run the loop, then require
that a URI was supplied (main.cpp lines 143-147), exiting 1 otherwise. -/
def s_parse_options (tokens : List CliToken) : PRes ParseSt :=
  match parseFold initSt tokens with
  | .exitWith code out => .exitWith code out
  | .ok st =>
      match st.ctx.uri with
      | none =>
          .exitWith 1
            (st.errLog ++ ["A URI for the request must be supplied."] ++ usageLines)
      | some _ => .ok st

/-- The port `main` ends up with (main.cpp lines 184-190): `443` from
initialization, overridden by `uri.GetPort()` when that is nonzero. -/
def mainPort (st : ParseSt) : Nat :=
  match st.ctx.uri with
  | some u => if u.port ≠ 0 then u.port else st.ctx.port
  | none => st.ctx.port

/-- The port reached on a given token list, when parsing succeeds. -/
def portOfRun (tokens : List CliToken) : Option Nat :=
  match s_parse_options tokens with
  | .ok st => some (mainPort st)
  | .exitWith _ _ => none

/-- Where `InitializeLogging` sends the log output. -/
inductive LogSink where
  | fileSink (path : String)
  | stdoutSink

/-- The logging initialization (main.cpp lines 199-207): with `-l FILE` the
log goes to that file, otherwise to `stdout`, in both cases at
`ctx.LogLevel`. -/
def mainLogInit (ctx : AppCtx) : LogSink × CrtLogLevel :=
  match ctx.traceFile with
  | some f => (.fileSink f, ctx.logLevel)
  | none => (.stdoutSink, ctx.logLevel)

/-- The client configuration `main` builds (main.cpp lines 224-231): a
`WebsocketConfig` for region "us-east-1", the CA certificate path via
`WithCertificateAuthority(ctx.cacert)`, and the endpoint via
`WithEndpoint(hostName)` where `hostName` is the URI's host. -/
structure MqttClientConfig where
  region : String
  cacert : Option String
  endpoint : Option String

/-- Build the client configuration from the parsed context (main.cpp lines
209, 224-231).  Only `cacert` and the URI's host are consulted. -/
def buildClientConfig (ctx : AppCtx) : MqttClientConfig :=
  { region := "us-east-1",
    cacert := ctx.cacert,
    endpoint := ctx.uri.map fun u => u.host }

/-- The arguments passed to `connection->Connect` (main.cpp lines 252 and
297): client id `"test-" + UUID`, `cleanSession` false, keep-alive 1000
seconds. -/
structure ConnectArgs where
  clientId : String
  cleanSession : Bool
  keepAliveSecs : Nat

/-- The connect call as `main` issues it; the freshly generated UUID string
is a parameter, and the context is passed to record that no field of it is
consulted (lines 252 and 297 read nothing from `app_ctx`). -/
def mainConnectArgs (_ctx : AppCtx) (uuid : String) : ConnectArgs :=
  { clientId := "test-" ++ uuid, cleanSession := false, keepAliveSecs := 1000 }

/-- The kinds of MQTT operations the workflow comment (main.cpp lines
157-174) speaks of. -/
inductive MqttOp where
  | connect
  | subscribe
  | publish
  | unsubscribe
deriving DecidableEq

/-- The MQTT operations `main` actually issues after option parsing, in
program order: the single `connection->Connect` call at line 297.  No call
to `Subscribe`, `Publish` or `Unsubscribe` occurs anywhere in main.cpp;
after the connect completes, `main` falls off the end ("Well, we just keep
the client running...", line 310). -/
def mainMqttScript : List MqttOp := [MqttOp.connect]

/-- Outcomes of the external SDK steps `main` checks after parsing, in the
order the code checks them: credentials-provider creation (line 218),
`clientConfigBuilder.Build()` (line 232), `NewConnection` (line 242), the
`Connect` call itself (line 297) and the completion result delivered to
`connectionCompletedPromise` (line 305). -/
structure ConnEnv where
  providerOk : Bool
  configOk : Bool
  connectionOk : Bool
  connectCallOk : Bool
  connectionCompleted : Bool

/-- An environment in which every external step succeeds. -/
def allOkEnv : ConnEnv :=
  { providerOk := true, configOk := true, connectionOk := true,
    connectCallOk := true, connectionCompleted := true }

/-- The process exit code of `main` (main.cpp lines 176-311): the code of
the `exit` reached inside parsing, else `exit(-1)` at the first failing
external step (lines 221, 238, 248, 301, 308), else the implicit `return 0`
at the end of `main`. -/
def mainExitCode (tokens : List CliToken) (env : ConnEnv) : Int :=
  match s_parse_options tokens with
  | .exitWith code _ => code
  | .ok _ =>
      if env.providerOk = false then -1
      else if env.configOk = false then -1
      else if env.connectionOk = false then -1
      else if env.connectCallOk = false then -1
      else if env.connectionCompleted = false then -1
      else 0

/-- `true` when the getopt layer reports this token as the `-v`/`--verbose`
option. -/
def isVerboseEv (t : CliToken) : Bool :=
  match aws_cli_getopt_long_ev t with
  | .opt c _ => c = 'v'
  | .positional _ => false

/-! ### Helper lemmas about the parse loop -/

/-- Splitting the parse loop at a list append. -/
theorem parseFold_append (ts1 : List CliToken) : ∀ (st : ParseSt) (ts2 : List CliToken),
    parseFold st (ts1 ++ ts2) =
      match parseFold st ts1 with
      | .exitWith code out => .exitWith code out
      | .ok st' => parseFold st' ts2 := by
  induction ts1 with
  | nil => intro st ts2; rfl
  | cons t ts ih =>
      intro st ts2
      simp only [List.cons_append, parseFold]
      cases parseStep st t with
      | exitWith code out => rfl
      | ok st1 => exact ih st1 ts2

/-- An option-character case that continues preserves `ctx.port`, and
preserves `ctx.logLevel` unless the character is `'v'`. -/
theorem parseOptChar_ok_inv {st st' : ParseSt} {c : Char} {arg : Option String}
    (h : parseOptChar st c arg = PRes.ok st') :
    st'.ctx.port = st.ctx.port ∧ (c ≠ 'v' → st'.ctx.logLevel = st.ctx.logLevel) := by
  unfold parseOptChar at h
  by_cases ha : c = 'a'
  · rw [if_pos ha] at h; cases h; exact ⟨rfl, fun _ => rfl⟩
  rw [if_neg ha] at h
  by_cases hc : c = 'c'
  · rw [if_pos hc] at h; cases h; exact ⟨rfl, fun _ => rfl⟩
  rw [if_neg hc] at h
  by_cases he : c = 'e'
  · rw [if_pos he] at h; cases h; exact ⟨rfl, fun _ => rfl⟩
  rw [if_neg he] at h
  by_cases hl : c = 'l'
  · rw [if_pos hl] at h; cases h; exact ⟨rfl, fun _ => rfl⟩
  rw [if_neg hl] at h
  by_cases hh : c = 'h'
  · rw [if_pos hh] at h; cases h
  rw [if_neg hh] at h
  by_cases hv : c = 'v'
  · rw [if_pos hv] at h
    by_cases hlt : logLevelNat ((arg.bind aws_string_to_log_level).getD CrtLogLevel.noneLevel) <
        logLevelNat CrtLogLevel.errorLevel
    · rw [if_pos hlt] at h; cases h
    · rw [if_neg hlt] at h; cases h
      exact ⟨rfl, fun hnv => absurd hv hnv⟩
  · rw [if_neg hv] at h; cases h

/-- An option-character case that exits has exit code 0 or 1 and has written
to stderr. -/
theorem parseOptChar_exit_inv {st : ParseSt} {c : Char} {arg : Option String}
    {cc : Int} {out : List String}
    (h : parseOptChar st c arg = PRes.exitWith cc out) :
    (cc = 0 ∨ cc = 1) ∧ out ≠ [] := by
  unfold parseOptChar at h
  by_cases ha : c = 'a'
  · rw [if_pos ha] at h; cases h
  rw [if_neg ha] at h
  by_cases hc : c = 'c'
  · rw [if_pos hc] at h; cases h
  rw [if_neg hc] at h
  by_cases he : c = 'e'
  · rw [if_pos he] at h; cases h
  rw [if_neg he] at h
  by_cases hl : c = 'l'
  · rw [if_pos hl] at h; cases h
  rw [if_neg hl] at h
  by_cases hh : c = 'h'
  · rw [if_pos hh] at h; cases h; exact ⟨Or.inl rfl, by simp [usageLines]⟩
  rw [if_neg hh] at h
  by_cases hv : c = 'v'
  · rw [if_pos hv] at h
    by_cases hlt : logLevelNat ((arg.bind aws_string_to_log_level).getD CrtLogLevel.noneLevel) <
        logLevelNat CrtLogLevel.errorLevel
    · rw [if_pos hlt] at h; cases h; exact ⟨Or.inr rfl, by simp⟩
    · rw [if_neg hlt] at h; cases h
  · rw [if_neg hv] at h; cases h; exact ⟨Or.inr rfl, by simp⟩

/-- A positional case that continues stores the URI and preserves the other
context fields this development tracks. -/
theorem parsePositional_ok_inv {st st' : ParseSt} {u : UriInput}
    (h : parsePositional st u = PRes.ok st') :
    st'.ctx.port = st.ctx.port ∧ st'.ctx.logLevel = st.ctx.logLevel := by
  unfold parsePositional at h
  cases hu : resolveUri u with
  | none => rw [hu] at h; cases h
  | some pu => rw [hu] at h; cases h; exact ⟨rfl, rfl⟩

/-- A positional case that exits has exit code 1 and has written to
stderr. -/
theorem parsePositional_exit_inv {st : ParseSt} {u : UriInput}
    {cc : Int} {out : List String}
    (h : parsePositional st u = PRes.exitWith cc out) :
    cc = 1 ∧ out ≠ [] := by
  unfold parsePositional at h
  cases hu : resolveUri u with
  | some pu => rw [hu] at h; cases h
  | none => rw [hu] at h; cases h; exact ⟨rfl, by simp⟩

/-- A loop iteration that continues never changes `ctx.port`. -/
theorem parseStep_ok_port {st st' : ParseSt} {t : CliToken}
    (h : parseStep st t = PRes.ok st') : st'.ctx.port = st.ctx.port := by
  cases t with
  | positional u => exact (parsePositional_ok_inv h).1
  | shortOpt c arg =>
      simp only [parseStep, aws_cli_getopt_long_ev] at h
      by_cases hm : c ∈ optstringChars
      · rw [if_pos hm] at h
        exact (parseOptChar_ok_inv (show parseOptChar st c arg = PRes.ok st' from h)).1
      · rw [if_neg hm] at h
        exact (parseOptChar_ok_inv (show parseOptChar st '?' arg = PRes.ok st' from h)).1
  | longOpt name arg =>
      simp only [parseStep, aws_cli_getopt_long_ev] at h
      cases hn : longOptionVal name with
      | some c0 =>
          rw [hn] at h
          exact (parseOptChar_ok_inv (show parseOptChar st c0 arg = PRes.ok st' from h)).1
      | none =>
          rw [hn] at h
          exact (parseOptChar_ok_inv (show parseOptChar st '?' arg = PRes.ok st' from h)).1

/-- A loop iteration on a token that is not the verbose option never changes
`ctx.logLevel`. -/
theorem parseStep_ok_logLevel {st st' : ParseSt} {t : CliToken}
    (hv : isVerboseEv t = false)
    (h : parseStep st t = PRes.ok st') : st'.ctx.logLevel = st.ctx.logLevel := by
  cases t with
  | positional u => exact (parsePositional_ok_inv h).2
  | shortOpt c arg =>
      have hcv : c ≠ 'v' := by
        intro hc
        subst hc
        have ht : isVerboseEv (CliToken.shortOpt 'v' arg) = true := rfl
        rw [ht] at hv
        cases hv
      simp only [parseStep, aws_cli_getopt_long_ev] at h
      by_cases hm : c ∈ optstringChars
      · rw [if_pos hm] at h
        exact (parseOptChar_ok_inv (show parseOptChar st c arg = PRes.ok st' from h)).2 hcv
      · rw [if_neg hm] at h
        exact (parseOptChar_ok_inv (show parseOptChar st '?' arg = PRes.ok st' from h)).2
          (by decide)
  | longOpt name arg =>
      simp only [parseStep, aws_cli_getopt_long_ev] at h
      cases hn : longOptionVal name with
      | some c0 =>
          have hcv : c0 ≠ 'v' := by
            intro hc
            subst hc
            have ht : isVerboseEv (CliToken.longOpt name arg) = true := by
              simp [isVerboseEv, aws_cli_getopt_long_ev, hn]
            rw [ht] at hv
            cases hv
          rw [hn] at h
          exact (parseOptChar_ok_inv (show parseOptChar st c0 arg = PRes.ok st' from h)).2 hcv
      | none =>
          rw [hn] at h
          exact (parseOptChar_ok_inv (show parseOptChar st '?' arg = PRes.ok st' from h)).2
            (by decide)

/-- Across the whole loop, `ctx.port` is preserved. -/
theorem parseFold_port {tokens : List CliToken} : ∀ st st' : ParseSt,
    parseFold st tokens = PRes.ok st' → st'.ctx.port = st.ctx.port := by
  induction tokens with
  | nil => intro st st' h; cases h; rfl
  | cons t ts ih =>
      intro st st' h
      unfold parseFold at h
      cases hst : parseStep st t with
      | exitWith code out => rw [hst] at h; cases h
      | ok st1 =>
          rw [hst] at h
          rw [ih st1 st' h, parseStep_ok_port hst]

/-- Across the whole loop, `ctx.logLevel` is preserved when no verbose
option occurs. -/
theorem parseFold_logLevel {tokens : List CliToken} : ∀ st st' : ParseSt,
    parseFold st tokens = PRes.ok st' →
    (∀ t ∈ tokens, isVerboseEv t = false) → st'.ctx.logLevel = st.ctx.logLevel := by
  induction tokens with
  | nil => intro st st' h _; cases h; rfl
  | cons t ts ih =>
      intro st st' h hall
      unfold parseFold at h
      cases hst : parseStep st t with
      | exitWith code out => rw [hst] at h; cases h
      | ok st1 =>
          rw [hst] at h
          have h1 := parseStep_ok_logLevel (hall t (by simp)) hst
          have h2 := ih st1 st' h (fun x hx => hall x (by simp [hx]))
          rw [h2, h1]

/-- Every exit taken inside a loop iteration has written something to
stderr. -/
theorem parseStep_exit_out {st : ParseSt} {t : CliToken} {c : Int} {out : List String}
    (h : parseStep st t = PRes.exitWith c out) : out ≠ [] := by
  cases t with
  | positional u => exact (parsePositional_exit_inv h).2
  | shortOpt c0 arg =>
      simp only [parseStep, aws_cli_getopt_long_ev] at h
      by_cases hm : c0 ∈ optstringChars
      · rw [if_pos hm] at h
        exact (parseOptChar_exit_inv
          (show parseOptChar st c0 arg = PRes.exitWith c out from h)).2
      · rw [if_neg hm] at h
        exact (parseOptChar_exit_inv
          (show parseOptChar st '?' arg = PRes.exitWith c out from h)).2
  | longOpt name arg =>
      simp only [parseStep, aws_cli_getopt_long_ev] at h
      cases hn : longOptionVal name with
      | some c0 =>
          rw [hn] at h
          exact (parseOptChar_exit_inv
            (show parseOptChar st c0 arg = PRes.exitWith c out from h)).2
      | none =>
          rw [hn] at h
          exact (parseOptChar_exit_inv
            (show parseOptChar st '?' arg = PRes.exitWith c out from h)).2

/-- Every exit taken inside the loop has written something to stderr. -/
theorem parseFold_exit_out {tokens : List CliToken} : ∀ (st : ParseSt) (c : Int)
    (out : List String), parseFold st tokens = PRes.exitWith c out → out ≠ [] := by
  induction tokens with
  | nil => intro st c out h; cases h
  | cons t ts ih =>
      intro st c out h
      unfold parseFold at h
      cases hst : parseStep st t with
      | exitWith c0 o0 =>
          rw [hst] at h; cases h; exact parseStep_exit_out hst
      | ok st1 => rw [hst] at h; exact ih st1 c out h

/-- When `s_parse_options` returns a context, the loop itself produced it. -/
theorem s_parse_options_ok {tokens : List CliToken} {st : ParseSt}
    (h : s_parse_options tokens = PRes.ok st) : parseFold initSt tokens = PRes.ok st := by
  unfold s_parse_options at h
  cases hf : parseFold initSt tokens with
  | exitWith code out =>
      rw [hf] at h
      exact absurd (show PRes.exitWith code out = PRes.ok st from h) (by intro hx; cases hx)
  | ok st0 =>
      rw [hf] at h
      have h2 : (match st0.ctx.uri with
          | none => PRes.exitWith 1
              (st0.errLog ++ ["A URI for the request must be supplied."] ++ usageLines)
          | some _ => PRes.ok st0) = PRes.ok st := h
      cases hu : st0.ctx.uri with
      | none => rw [hu] at h2; cases h2
      | some u => rw [hu] at h2; cases h2; rfl

/-- A loop iteration that exits mid-way determines the program's exit code,
whatever tokens follow. -/
theorem mainExitCode_of_midexit {pre post : List CliToken} {st : ParseSt}
    {t : CliToken} {c : Int} {out : List String} {env : ConnEnv}
    (hpre : parseFold initSt pre = PRes.ok st)
    (hstep : parseStep st t = PRes.exitWith c out) :
    mainExitCode (pre ++ t :: post) env = c := by
  unfold mainExitCode s_parse_options
  rw [parseFold_append, hpre]
  simp only [parseFold]
  rw [hstep]

/-- The `-h` option exits with code 0, printing the usage text. -/
theorem parseStep_help (st : ParseSt) (arg : Option String) :
    parseStep st (CliToken.shortOpt 'h' arg) =
      PRes.exitWith 0 (st.errLog ++ usageLines) := rfl

/-- An option character with no handled switch case hits the default
branch. -/
theorem parseOptChar_unknown {c : Char} (st : ParseSt) (arg : Option String)
    (ha : c ≠ 'a') (hcc : c ≠ 'c') (he : c ≠ 'e') (hl : c ≠ 'l')
    (hh : c ≠ 'h') (hv : c ≠ 'v') :
    parseOptChar st c arg =
      PRes.exitWith 1 (st.errLog ++ ["Unknown option"] ++ usageLines) := by
  unfold parseOptChar
  rw [if_neg ha, if_neg hcc, if_neg he, if_neg hl, if_neg hh, if_neg hv]

/-- A short option outside the handled cases hits the default branch. -/
theorem parseStep_unknown_short {c : Char} (st : ParseSt) (arg : Option String)
    (hc : c ∉ (['a', 'c', 'e', 'l', 'h', 'v'] : List Char)) :
    parseStep st (CliToken.shortOpt c arg) =
      PRes.exitWith 1 (st.errLog ++ ["Unknown option"] ++ usageLines) := by
  simp only [List.mem_cons, List.not_mem_nil, or_false, not_or] at hc
  obtain ⟨ha, hcc, he, hl, hh, hv⟩ := hc
  by_cases hm : c ∈ optstringChars
  · have hred : parseStep st (CliToken.shortOpt c arg) = parseOptChar st c arg := by
      simp only [parseStep, aws_cli_getopt_long_ev, if_pos hm]
    rw [hred]
    exact parseOptChar_unknown st arg ha hcc he hl hh hv
  · have hred : parseStep st (CliToken.shortOpt c arg) = parseOptChar st '?' arg := by
      simp only [parseStep, aws_cli_getopt_long_ev, if_neg hm]
    rw [hred]
    exact parseOptChar_unknown st arg (by decide) (by decide) (by decide) (by decide)
      (by decide) (by decide)

/-- A long option missing from `s_long_options` hits the default branch. -/
theorem parseStep_unknown_long {name : String} (st : ParseSt) (arg : Option String)
    (hn : longOptionVal name = none) :
    parseStep st (CliToken.longOpt name arg) =
      PRes.exitWith 1 (st.errLog ++ ["Unknown option"] ++ usageLines) := by
  have hred : parseStep st (CliToken.longOpt name arg) = parseOptChar st '?' arg := by
    simp only [parseStep, aws_cli_getopt_long_ev, hn]
  rw [hred]
  exact parseOptChar_unknown st arg (by decide) (by decide) (by decide) (by decide)
    (by decide) (by decide)

/-- A positional argument whose URI does not resolve exits with code 1. -/
theorem parseStep_uri_fail {u : UriInput} (st : ParseSt)
    (hu : resolveUri u = none) :
    parseStep st (CliToken.positional u) =
      PRes.exitWith 1 (st.errLog ++ ["Failed to parse uri"] ++ usageLines) := by
  show parsePositional st u = _
  unfold parsePositional
  rw [hu]

/-- The missing-URI check at the end of `s_parse_options` (main.cpp lines
143-147) exits 1 with its message. -/
theorem s_parse_options_no_uri {tokens : List CliToken} {st : ParseSt}
    (hf : parseFold initSt tokens = PRes.ok st) (hu : st.ctx.uri = none) :
    s_parse_options tokens =
      PRes.exitWith 1
        (st.errLog ++ ["A URI for the request must be supplied."] ++ usageLines) := by
  unfold s_parse_options
  rw [hf]
  show (match st.ctx.uri with
      | none => PRes.exitWith 1
          (st.errLog ++ ["A URI for the request must be supplied."] ++ usageLines)
      | some _ => PRes.ok st) = _
  rw [hu]

/-! ### The claims -/

/-- C1: the claim says a successful connect is always followed by at least
one subscribe, one publish and one unsubscribe.  Evaluating the program's
operation script refutes this on the code: the only MQTT operation `main`
issues is the connect itself; no subscribe, publish or unsubscribe call
exists in the file, although the file's own workflow comment (main.cpp lines
157-174) promises them. -/
theorem c1_main_script_connect_only :
    mainMqttScript = [MqttOp.connect] ∧
    MqttOp.subscribe ∉ mainMqttScript ∧
    MqttOp.publish ∉ mainMqttScript ∧
    MqttOp.unsubscribe ∉ mainMqttScript := by decide

/-- C2 (counterexample): a valid `mqtt` URI without an explicit port makes
the program use port 443, while the scheme's default port is 1883 — so the
port used is not "the URI scheme's default port". -/
theorem c2_counterexample :
    resolveUri ⟨"mqtt", some "localhost", 0⟩ = some ⟨"mqtt", "localhost", 0⟩ ∧
    portOfRun [CliToken.positional ⟨"mqtt", some "localhost", 0⟩] = some 443 ∧
    specSchemeDefaultPort "mqtt" = 1883 ∧ (443 : Nat) ≠ 1883 :=
  ⟨rfl, rfl, rfl, by decide⟩

/-- C2 (amended): for every run whose arguments parse, an explicit (nonzero)
URI port is used unchanged, and a URI without a port yields 443 regardless
of its scheme. -/
theorem c2_port_resolution :
    ∀ (tokens : List CliToken) (st : ParseSt) (u : ParsedUri),
      s_parse_options tokens = PRes.ok st → st.ctx.uri = some u →
      (u.port ≠ 0 → mainPort st = u.port) ∧ (u.port = 0 → mainPort st = 443) := by
  intro tokens st u hs hu
  have hport : st.ctx.port = 443 := by
    rw [parseFold_port initSt st (s_parse_options_ok hs)]
    rfl
  have hm : mainPort st = if u.port ≠ 0 then u.port else st.ctx.port := by
    unfold mainPort
    rw [hu]
  constructor
  · intro hp
    rw [hm, if_pos hp]
  · intro hp
    rw [hm, if_neg (by simp [hp]), hport]

/-- C2 (witness): a `wss` URI with explicit port 8883 is used unchanged. -/
theorem c2_port_witness :
    mainPort { ctx := { initCtx with uri := some ⟨"wss", "localhost", 8883⟩ },
               errLog := ["Success to parse uri"] } = 8883 :=
  (c2_port_resolution [CliToken.positional ⟨"wss", some "localhost", 8883⟩]
    { ctx := { initCtx with uri := some ⟨"wss", "localhost", 8883⟩ },
      errLog := ["Success to parse uri"] }
    ⟨"wss", "localhost", 8883⟩ rfl rfl).1 (by decide)

/-- C3: the claim says `--connect-timeout MS` parses successfully and sets
the connect timeout.  On the code, the option is registered in
`s_long_options` with `val = 'f'` but the switch has no case `'f'`, so the
parse hits the default branch, prints "Unknown option" and exits 1 via the
usage path; `ctx.connect_timeout` stays at its default 3000 and is never
consulted. -/
theorem c3_connect_timeout_rejected :
    longOptionVal "connect-timeout" = some 'f' ∧
    initCtx.connect_timeout = 3000 ∧
    s_parse_options [CliToken.longOpt "connect-timeout" (some "5000"),
        CliToken.positional ⟨"wss", some "localhost", 443⟩] =
      PRes.exitWith 1 (["Unknown option"] ++ usageLines) :=
  ⟨rfl, rfl, rfl⟩

/-- C4 (counterexample): an invocation that contains `-h` but hits an
unknown option first exits with code 1, not 0, so "for every invocation with
`-h`/`--help` the process exits with code 0" is false as stated. -/
theorem c4_counterexample :
    mainExitCode [CliToken.shortOpt 'X' none, CliToken.shortOpt 'h' none]
      allOkEnv = 1 ∧ (1 : Int) ≠ 0 :=
  ⟨rfl, by decide⟩

/-- C4 (amended): when `-h`/`--help` is encountered before any parse
failure the process exits 0; an unknown option, an unparsable URI or a
missing URI makes it exit 1, every parse-phase exit having written to
stderr; and a failed connection attempt makes it exit nonzero. -/
theorem c4_exit_codes :
    (∀ (pre post : List CliToken) (st : ParseSt) (env : ConnEnv),
        parseFold initSt pre = PRes.ok st →
        mainExitCode (pre ++ CliToken.shortOpt 'h' none :: post) env = 0) ∧
    (∀ (pre post : List CliToken) (st : ParseSt) (env : ConnEnv) (c : Char)
        (arg : Option String),
        parseFold initSt pre = PRes.ok st →
        c ∉ (['a', 'c', 'e', 'l', 'h', 'v'] : List Char) →
        mainExitCode (pre ++ CliToken.shortOpt c arg :: post) env = 1) ∧
    (∀ (pre post : List CliToken) (st : ParseSt) (env : ConnEnv) (u : UriInput),
        parseFold initSt pre = PRes.ok st →
        resolveUri u = none →
        mainExitCode (pre ++ CliToken.positional u :: post) env = 1) ∧
    (∀ (tokens : List CliToken) (st : ParseSt) (env : ConnEnv),
        parseFold initSt tokens = PRes.ok st →
        st.ctx.uri = none →
        mainExitCode tokens env = 1) ∧
    (∀ (tokens : List CliToken) (c : Int) (out : List String),
        s_parse_options tokens = PRes.exitWith c out → out ≠ []) ∧
    (∀ (tokens : List CliToken) (st : ParseSt) (env : ConnEnv),
        s_parse_options tokens = PRes.ok st →
        env.connectionCompleted = false →
        mainExitCode tokens env ≠ 0) := by
  refine ⟨?_, ?_, ?_, ?_, ?_, ?_⟩
  · intro pre post st env hpre
    exact mainExitCode_of_midexit hpre (parseStep_help st none)
  · intro pre post st env c arg hpre hc
    exact mainExitCode_of_midexit hpre (parseStep_unknown_short st arg hc)
  · intro pre post st env u hpre hu
    exact mainExitCode_of_midexit hpre (parseStep_uri_fail st hu)
  · intro tokens st env hf hu
    unfold mainExitCode
    rw [s_parse_options_no_uri hf hu]
  · intro tokens c out h
    unfold s_parse_options at h
    cases hf : parseFold initSt tokens with
    | exitWith c0 o0 =>
        rw [hf] at h
        have h2 : PRes.exitWith c0 o0 = PRes.exitWith c out := h
        cases h2
        exact parseFold_exit_out _ _ _ hf
    | ok st0 =>
        rw [hf] at h
        have h2 : (match st0.ctx.uri with
            | none => PRes.exitWith 1
                (st0.errLog ++ ["A URI for the request must be supplied."] ++ usageLines)
            | some _ => PRes.ok st0) = PRes.exitWith c out := h
        cases hu : st0.ctx.uri with
        | none =>
            rw [hu] at h2
            cases h2
            simp [usageLines]
        | some u =>
            rw [hu] at h2
            cases h2
  · intro tokens st env hs hcc
    unfold mainExitCode
    rw [hs]
    rcases env with ⟨p, cf, cn, cl, cm⟩
    have hcm : cm = false := hcc
    subst hcm
    show (if p = false then (-1 : Int)
          else if cf = false then -1
          else if cn = false then -1
          else if cl = false then -1
          else if false = false then -1
          else 0) ≠ 0
    cases p <;> cases cf <;> cases cn <;> cases cl <;> decide

/-- C4 (witness): the amended statement at concrete invocations: plain `-h`
exits 0; a lone unknown option, a bad URI, and an empty command line each
exit 1; a run whose connection never completes exits nonzero; and the
missing-URI exit wrote to stderr. -/
theorem c4_exit_codes_witness :
    mainExitCode [CliToken.shortOpt 'h' none] allOkEnv = 0 ∧
    mainExitCode [CliToken.shortOpt 'X' none] allOkEnv = 1 ∧
    mainExitCode [CliToken.positional ⟨"wss", none, 0⟩] allOkEnv = 1 ∧
    mainExitCode [] allOkEnv = 1 ∧
    (([] : List String) ++ ["A URI for the request must be supplied."] ++ usageLines) ≠ [] ∧
    mainExitCode [CliToken.positional ⟨"wss", some "localhost", 8883⟩]
      { allOkEnv with connectionCompleted := false } ≠ 0 :=
  ⟨c4_exit_codes.1 [] [] initSt allOkEnv rfl,
   c4_exit_codes.2.1 [] [] initSt allOkEnv 'X' none rfl (by decide),
   c4_exit_codes.2.2.1 [] [] initSt allOkEnv ⟨"wss", none, 0⟩ rfl rfl,
   c4_exit_codes.2.2.2.1 [] initSt allOkEnv rfl rfl,
   c4_exit_codes.2.2.2.2.1 [] 1
     (([] : List String) ++ ["A URI for the request must be supplied."] ++ usageLines)
     rfl,
   c4_exit_codes.2.2.2.2.2 [CliToken.positional ⟨"wss", some "localhost", 8883⟩]
     { ctx := { initCtx with uri := some ⟨"wss", "localhost", 8883⟩ },
       errLog := ["Success to parse uri"] }
     { allOkEnv with connectionCompleted := false } rfl rfl⟩

/-- C5: the verbose LEVEL strings accepted by `-v`/`--verbose` are exactly
ERROR, INFO, DEBUG and TRACE; any other string leaves the preset level below
`Error`, so the program prints "unsupported log level" and exits 1 via the
usage path.  (The string-to-level conversion is modelled from the spec,
since `aws_string_to_log_level` is not under `src/`.) -/
theorem c5_verbose_levels :
    ∀ (st : ParseSt) (s : String),
      ((s = "ERROR" ∨ s = "INFO" ∨ s = "DEBUG" ∨ s = "TRACE") →
        ∃ st' : ParseSt,
          parseStep st (CliToken.shortOpt 'v' (some s)) = PRes.ok st' ∧
          aws_string_to_log_level s = some st'.ctx.logLevel) ∧
      (¬(s = "ERROR" ∨ s = "INFO" ∨ s = "DEBUG" ∨ s = "TRACE") →
        parseStep st (CliToken.shortOpt 'v' (some s)) =
          PRes.exitWith 1 (st.errLog ++ ["unsupported log level"] ++ usageLines)) := by
  intro st s
  constructor
  · rintro (rfl | rfl | rfl | rfl)
    · exact ⟨_, rfl, rfl⟩
    · exact ⟨_, rfl, rfl⟩
    · exact ⟨_, rfl, rfl⟩
    · exact ⟨_, rfl, rfl⟩
  · intro hs
    push_neg at hs
    obtain ⟨h1, h2, h3, h4⟩ := hs
    have hred : parseStep st (CliToken.shortOpt 'v' (some s)) =
        parseOptChar st 'v' (some s) := rfl
    rw [hred]
    simp [parseOptChar, aws_string_to_log_level, h1, h2, h3, h4, logLevelNat]

/-- C5 (witness): DEBUG is accepted and sets the level; WARN is rejected
through the usage path. -/
theorem c5_verbose_witness :
    (∃ st' : ParseSt,
      parseStep initSt (CliToken.shortOpt 'v' (some "DEBUG")) = PRes.ok st' ∧
      aws_string_to_log_level "DEBUG" = some st'.ctx.logLevel) ∧
    parseStep initSt (CliToken.shortOpt 'v' (some "WARN")) =
      PRes.exitWith 1 (initSt.errLog ++ ["unsupported log level"] ++ usageLines) :=
  ⟨(c5_verbose_levels initSt "DEBUG").1 (by decide),
   (c5_verbose_levels initSt "WARN").2 (by decide)⟩

/-- C6: a URI that lacks a host, or whose scheme is not one of mqtt, mqtts,
wss, fails to resolve; the program then reports the failure to stderr and
exits 1 via the usage path.  (URI parsing is modelled from the spec, since
the `Io::Uri` parser is not under `src/`.) -/
theorem c6_uri_validation :
    ∀ u : UriInput,
      (u.host = none ∨ u.scheme ∉ (["mqtt", "mqtts", "wss"] : List String)) →
      resolveUri u = none ∧
      (∀ st : ParseSt, parseStep st (CliToken.positional u) =
        PRes.exitWith 1 (st.errLog ++ ["Failed to parse uri"] ++ usageLines)) ∧
      (∀ (pre post : List CliToken) (st : ParseSt) (env : ConnEnv),
        parseFold initSt pre = PRes.ok st →
        mainExitCode (pre ++ CliToken.positional u :: post) env = 1) := by
  intro u hu
  have hres : resolveUri u = none := by
    unfold resolveUri
    rcases hu with hh | hsch
    · rw [hh]
    · simp only [List.mem_cons, List.not_mem_nil, or_false, not_or] at hsch
      obtain ⟨h1, h2, h3⟩ := hsch
      cases hhost : u.host with
      | none => rfl
      | some h =>
          show (if u.scheme = "mqtt" ∨ u.scheme = "mqtts" ∨ u.scheme = "wss" then
              some (⟨u.scheme, h, u.port⟩ : ParsedUri)
            else none) = none
          rw [if_neg (by simp [h1, h2, h3])]
  exact ⟨hres, fun st => parseStep_uri_fail st hres,
    fun pre post st env hpre => mainExitCode_of_midexit hpre (parseStep_uri_fail st hres)⟩

/-- C6 (witness): a hostless URI and an `http`-scheme URI each exit 1 with
the parse error on stderr. -/
theorem c6_uri_witness :
    parseStep initSt (CliToken.positional ⟨"wss", none, 0⟩) =
      PRes.exitWith 1 (initSt.errLog ++ ["Failed to parse uri"] ++ usageLines) ∧
    parseStep initSt (CliToken.positional ⟨"http", some "h", 0⟩) =
      PRes.exitWith 1 (initSt.errLog ++ ["Failed to parse uri"] ++ usageLines) :=
  ⟨(c6_uri_validation ⟨"wss", none, 0⟩ (by decide)).2.1 initSt,
   (c6_uri_validation ⟨"http", some "h", 0⟩ (by decide)).2.1 initSt⟩

/-- C8: the built client configuration depends only on the CA-certificate
path and the URI's host: any two contexts agreeing on those build equal
configurations, and in particular varying `cert`, `key` and
`connect_timeout` leaves the configuration unchanged. -/
theorem c8_config_frame :
    (∀ ctx1 ctx2 : AppCtx, ctx1.cacert = ctx2.cacert →
      (ctx1.uri.map fun u => u.host) = (ctx2.uri.map fun u => u.host) →
      buildClientConfig ctx1 = buildClientConfig ctx2) ∧
    (∀ (ctx : AppCtx) (c k : Option String) (t : Int),
      buildClientConfig { ctx with cert := c, key := k, connect_timeout := t } =
        buildClientConfig ctx) := by
  constructor
  · intro ctx1 ctx2 h1 h2
    unfold buildClientConfig
    rw [h1, h2]
  · intro ctx c k t
    rfl

/-- C8 (witness): two contexts differing only in `cert`, `key` and
`connect_timeout` build the same configuration. -/
theorem c8_config_witness :
    buildClientConfig
        { initCtx with
          cert := some "a.pem", key := some "a.key", connect_timeout := 9999 } =
      buildClientConfig
        { initCtx with cert := none, key := none, connect_timeout := 1 } :=
  c8_config_frame.1 _ _ rfl rfl

/-- C9: logging is initialized on every post-parse path: with `-l FILE` the
log goes to that file, otherwise to stdout (not stderr), in both cases at
the context's log level, whose parsed default (no `-v` anywhere on the
command line) is none. -/
theorem c9_logging :
    (∀ (ctx : AppCtx) (f : String), ctx.traceFile = some f →
      mainLogInit ctx = (LogSink.fileSink f, ctx.logLevel)) ∧
    (∀ ctx : AppCtx, ctx.traceFile = none →
      mainLogInit ctx = (LogSink.stdoutSink, ctx.logLevel)) ∧
    initCtx.logLevel = CrtLogLevel.noneLevel ∧
    (∀ (tokens : List CliToken) (st : ParseSt),
      parseFold initSt tokens = PRes.ok st →
      (∀ t ∈ tokens, isVerboseEv t = false) →
      st.ctx.logLevel = CrtLogLevel.noneLevel) := by
  refine ⟨?_, ?_, rfl, ?_⟩
  · intro ctx f h
    unfold mainLogInit
    rw [h]
  · intro ctx h
    unfold mainLogInit
    rw [h]
  · intro tokens st hf hv
    rw [parseFold_logLevel initSt st hf hv]
    rfl

/-- C9 (witness): `-l trace.log` sends the log to that file, no `-l` sends
it to stdout, and a `-v`-free command line keeps the level at none. -/
theorem c9_logging_witness :
    mainLogInit { initCtx with traceFile := some "trace.log" } =
      (LogSink.fileSink "trace.log", CrtLogLevel.noneLevel) ∧
    mainLogInit initCtx = (LogSink.stdoutSink, CrtLogLevel.noneLevel) ∧
    ({ ctx := { initCtx with cacert := some "ca.pem" },
       errLog := [] } : ParseSt).ctx.logLevel = CrtLogLevel.noneLevel :=
  ⟨c9_logging.1 { initCtx with traceFile := some "trace.log" } "trace.log" rfl,
   c9_logging.2.1 initCtx rfl,
   c9_logging.2.2.2 [CliToken.shortOpt 'a' (some "ca.pem")]
     { ctx := { initCtx with cacert := some "ca.pem" }, errLog := [] }
     rfl (by decide)⟩

/-- C10: the connect call always uses client id `"test-"` followed by the
freshly generated UUID, `cleanSession = false` and a 1000-second keep-alive,
and none of these depend on the parsed command-line context. -/
theorem c10_connect_args :
    ∀ (ctx : AppCtx) (uuid : String),
      (mainConnectArgs ctx uuid).clientId = "test-" ++ uuid ∧
      (mainConnectArgs ctx uuid).cleanSession = false ∧
      (mainConnectArgs ctx uuid).keepAliveSecs = 1000 ∧
      ∀ ctx' : AppCtx, mainConnectArgs ctx uuid = mainConnectArgs ctx' uuid := by
  intro ctx uuid
  exact ⟨rfl, rfl, rfl, fun _ => rfl⟩

end WebsocketApp
